import Mathlib

/-!
Shallow embedding of vm.py, the QEMU virtual machine management tool.

Console output and subprocess invocations are modelled as an explicit
trace of effects.  Python dictionaries become association lists, dict
indexing becomes lookup with an explicit KeyError outcome, and the
filesystem and the network are oracles passed in as functions
(fs : filename exists on disk; occupied : a TCP listener is bound on
the port of 127.0.0.1; runShell : exit code of a shell command).
-/

namespace Vm

/-- An observable side effect of the tool: a line printed to the console
or a shell command handed to subprocess.call with shell=True. -/
inductive Effect where
  | print (msg : String)
  | shell (cmd : String)
deriving Repr, DecidableEq

/-- Source line 17. -/
def debian : String := "debian"

/-- Source line 18. -/
def ubuntu : String := "ubuntu"

/-- Source line 20 (the misspelling is the source's). -/
def distbibutions : List String := [debian, ubuntu]

/-- Source lines 22-24: distribution name to local ISO filename. -/
def iso_paths : List (String × String) :=
  [(debian, "debian-10.13.0-amd64-xfce-CD-1.iso"),
   (ubuntu, "ubuntu-20.04.3-live-server-amd64.iso")]

/-- Source lines 26-28: distribution name to download URL. -/
def iso_urls : List (String × String) :=
  [(debian, "https://cdimage.debian.org/cdimage/archive/10.4.0-live/amd64/iso-hybrid/debian-live-10.4.0-amd64-standard.iso"),
   (ubuntu, "https://releases.ubuntu.com/focal/ubuntu-20.04.6-desktop-amd64.iso")]

/-- Python dict indexing m[k]: the value when the key is present,
a KeyError otherwise. -/
def dict_get (m : List (String × String)) (k : String) : Except String String :=
  match m.lookup k with
  | some v => Except.ok v
  | none => Except.error "KeyError"

/-- Source lines 31-36: download_iso(dist).  The membership test is on
iso_paths; the command string then indexes iso_urls and iso_paths. -/
def download_iso (dist : String) : Except String (List Effect) :=
  if (iso_paths.lookup dist).isSome then
    match dict_get iso_urls dist, dict_get iso_paths dist with
    | Except.ok url, Except.ok path =>
        Except.ok [Effect.shell ("wget " ++ url ++ " -O " ++ path)]
    | Except.error e, _ => Except.error e
    | _, Except.error e => Except.error e
  else
    Except.ok [Effect.print "Distribution not supported"]

/-- Source lines 39-43: iso_exists(dist), with os.path.exists modelled by
the filesystem oracle fs. -/
def iso_exists (fs : String → Bool) (dist : String) : Bool :=
  match iso_paths.lookup dist with
  | some path => fs path
  | none => false

/-- Errno returned by connect on a closed file descriptor. -/
def EBADF : Nat := 9

/-- Errno returned by connect to a local port with no listener. -/
def ECONNREFUSED : Nat := 111

/-- Result of sock.connect_ex on 127.0.0.1 at the given port: 0 when the
socket is open and a listener is bound there, a connection refusal when
the socket is open and no listener is bound, and EBADF when the socket
has already been closed (CPython returns the errno of the failed C-level
connect call instead of raising). -/
def connect_ex (sockOpen : Bool) (occupied : Nat → Bool) (port : Nat) : Nat :=
  if sockOpen then (if occupied port then 0 else ECONNREFUSED) else EBADF

/-- Source lines 49-58: the while-True body of get_available_port.  The
single socket created on line 48 is closed by sock.close inside the loop
body, so from the second iteration on sockOpen is false.  The fuel
argument bounds the unrolling; the loop itself has no bound. -/
def get_available_port_loop (occupied : Nat → Bool) :
    Nat → Bool → Nat → Option (Nat × List Effect)
  | 0, _, _ => none
  | fuel + 1, sockOpen, port =>
    if connect_ex sockOpen occupied port == 0 then
      match get_available_port_loop occupied fuel false (port + 1) with
      | some (p, es) =>
          some (p, Effect.print ("Port " ++ toString port ++ " is already in use") :: es)
      | none => none
    else
      some (port, [Effect.print ("Port " ++ toString port ++ " is available")])

/-- Source lines 46-58: get_available_port, starting the probe at
port 3132 with a freshly opened socket. -/
def get_available_port (occupied : Nat → Bool) (fuel : Nat) :
    Option (Nat × List Effect) :=
  get_available_port_loop occupied fuel true 3132

/-- Source line 62: the composed disk-image filename. -/
def vm_img_path (name : String) (size : Int) : String :=
  name ++ ".size" ++ toString size ++ "G.qcow2"

/-- Source lines 61-66: create_vm_from_iso(name, size, iso_path). -/
def create_vm_from_iso (name : String) (size : Int) (iso_path : String) :
    List Effect :=
  let img_path := vm_img_path name size
  let cmd1 := "qemu-img create -f qcow2 " ++ img_path ++ " " ++ toString size ++ "G"
  let cmd2 := "qemu-system-x86_64 -enable-kvm -hda " ++ img_path ++ " -cdrom "
      ++ iso_path
      ++ " -m 4000 -boot d -net user -net nic,model=ne2k_pci -enable-kvm"
  [Effect.shell cmd1, Effect.shell cmd2]

/-- Source lines 69-75: create_vm(name, size, dist).  The membership test
is on distbibutions; iso_paths[dist] on line 73 is a dict indexing that
could raise KeyError. -/
def create_vm (fs : String → Bool) (name : String) (size : Int) (dist : String) :
    Except String (List Effect) :=
  if distbibutions.contains dist then
    (if iso_exists fs dist then Except.ok [] else download_iso dist).bind fun dl =>
      (dict_get iso_paths dist).bind fun path =>
        Except.ok (dl ++ create_vm_from_iso name size path)
  else
    Except.ok [Effect.print "Distribution not supported"]

/-- Source lines 83-113: the argument list assembled by start_vm.  The
sequential cmd.append calls become list concatenation in program order;
cmd.insert(0, "sudo") prepends.  Line 86 computes int(os.cpu_count()/2):
for a natural cpu count this truncation is natural-number division by 2. -/
def start_vm_cmd (img_path : String) (ssh_port mem_size : Int)
    (daemonize : Bool) (disk : Option String) (qemu_extra_args : Option String)
    (ncpus : Option Int) (useSudo graphical : Bool) (cpu_count : Nat) :
    List String :=
  let port := ssh_port + 1
  let ncpus := match ncpus with
    | none => Int.ofNat (cpu_count / 2)
    | some n => n
  let base :=
    ["qemu-system-x86_64"]
    ++ (if !graphical then ["-vnc 127.0.0.1:" ++ toString port] else [])
    ++ ["-smp " ++ toString ncpus,
        "-cpu host",
        "-device virtio-net,netdev=user.0",
        "-m " ++ toString mem_size,
        "-drive file=" ++ img_path
          ++ ",if=virtio,index=0,cache=writeback,discard=ignore,format=qcow2",
        "-machine type=pc,accel=kvm",
        "-netdev user,id=user.0,hostfwd=tcp::" ++ toString ssh_port ++ "-:22"]
    ++ (if daemonize then ["--daemonize"] else [])
    ++ (match disk with
        | some d => ["-drive file=" ++ d
            ++ ",if=virtio,index=1,cache=writeback,discard=ignore,format=qcow2"]
        | none => [])
    ++ (match qemu_extra_args with
        | some s => [s]
        | none => [])
  if useSudo then "sudo" :: base else base

/-- Source lines 119-120: the success message of start_vm; the print of
several arguments joins them with single spaces ("wih" is the source's
typo). -/
def start_vm_success_msg (ssh_port : Int) : String :=
  "vm started wih ssh port " ++ toString ssh_port
    ++ " on localhost connect with \nssh -p " ++ toString ssh_port
    ++ " \x7bUSER\x7d@localhost"

/-- Source lines 78-122: start_vm.  runShell is the exit-code oracle of
subprocess.call(..., shell=True); cpu_count is os.cpu_count(). -/
def start_vm (runShell : String → Int) (cpu_count : Nat)
    (img_path : String) (ssh_port mem_size : Int) (daemonize : Bool)
    (disk : Option String) (verbose : Bool) (qemu_extra_args : Option String)
    (ncpus : Option Int) (useSudo graphical : Bool) : List Effect :=
  let cmd := start_vm_cmd img_path ssh_port mem_size daemonize disk
      qemu_extra_args ncpus useSudo graphical cpu_count
  let joined := String.intercalate " " cmd
  (if verbose then [Effect.print joined] else [])
  ++ Effect.shell joined ::
      (if runShell joined == 0 then
        [Effect.print (start_vm_success_msg ssh_port)]
      else
        [Effect.print "vm failed to start"])

/-- Boolean test that the first character list starts the second. -/
def listPre : List Char → List Char → Bool
  | [], _ => true
  | _ :: _, [] => false
  | a :: as, b :: bs => a == b && listPre as bs

/-- Boolean test that the first character list occurs inside the second. -/
def listSub (p : List Char) : List Char → Bool
  | [] => listPre p []
  | c :: cs => listPre p (c :: cs) || listSub p cs

/-- Boolean substring test on strings. -/
def strContains (s pat : String) : Bool :=
  listSub pat.data s.data

/-- Boolean test that pat starts the string s. -/
def strStartsWith (pat s : String) : Bool :=
  listPre pat.data s.data

theorem listPre_append_self (p r : List Char) : listPre p (p ++ r) = true := by
  induction p with
  | nil => rfl
  | cons a as ih => simp [listPre, ih]

theorem listSub_self_append (p r : List Char) : listSub p (p ++ r) = true := by
  cases p with
  | nil => cases r <;> simp [listSub, listPre]
  | cons a as => simp [listSub, listPre, listPre_append_self]

theorem listSub_of_pre (p l : List Char) (h : listPre p l = true) :
    listSub p l = true := by
  cases l with
  | nil => simpa [listSub] using h
  | cons c cs => simp [listSub, h]

theorem listSub_append_left (a p b : List Char) (h : listSub p b = true) :
    listSub p (a ++ b) = true := by
  induction a with
  | nil => simpa using h
  | cons c cs ih => simp [listSub, ih]

theorem strContains_split (pre pat post : String) :
    strContains (pre ++ (pat ++ post)) pat = true := by
  show listSub pat.data (pre.data ++ (pat.data ++ post.data)) = true
  exact listSub_append_left _ _ _ (listSub_self_append _ _)

theorem strContains_append_right (a b pat : String)
    (h : strContains b pat = true) : strContains (a ++ b) pat = true := by
  show listSub pat.data (a.data ++ b.data) = true
  exact listSub_append_left _ _ _ h

/-- Claim C1.  The claim says get_available_port never returns a port on
which a listener is currently bound at call time.  The code violates this:
the probe socket is closed inside the first loop iteration and never
reopened, so from the second iteration on connect_ex returns EBADF, which
the loop reads as the port being free.  Evaluated with listeners bound on
both 3132 and 3133, the function returns 3133 and even prints that 3133
is available although a listener is bound there. -/
theorem get_available_port_bug_eval :
    get_available_port (fun p => p == 3132 || p == 3133) 10 =
      some (3133, [Effect.print "Port 3132 is already in use",
                   Effect.print "Port 3133 is available"])
    ∧ (fun p : Nat => p == 3132 || p == 3133) 3133 = true := by
  constructor
  · rfl
  · rfl

/-- Claim C5: for every name and positive size, create_vm_from_iso
composes the disk-image filename as name.size(size)G.qcow2, and the
qemu-img command it issues first allocates exactly that path; the
instance name test, size 10 gives test.size10G.qcow2. -/
theorem create_vm_img_filename (name : String) (size : Int)
    (iso_path : String) (h : 0 < size) :
    vm_img_path name size = name ++ ".size" ++ toString size ++ "G.qcow2" ∧
    vm_img_path "test" 10 = "test.size10G.qcow2" ∧
    ∃ rest, create_vm_from_iso name size iso_path =
      Effect.shell ("qemu-img create -f qcow2 "
          ++ (name ++ ".size" ++ toString size ++ "G.qcow2")
          ++ " " ++ toString size ++ "G") :: rest :=
  ⟨rfl, rfl, ⟨_, rfl⟩⟩

/-- Witness for claim C5 at name test, size 10. -/
theorem create_vm_img_filename_w :
    (0 : Int) < 10 ∧ vm_img_path "test" 10 = "test.size10G.qcow2" :=
  ⟨by decide, (create_vm_img_filename "test" 10 "x.iso" (by decide)).2.1⟩

/-- Claim C6: create_vm_from_iso first invokes qemu-img to allocate a
qcow2 file of size GB at the composed path, then invokes the hypervisor
booting from iso_path as CD-ROM (-cdrom) with the new disk attached
(-hda), 4000 MB memory (-m 4000), KVM acceleration (-enable-kvm), NIC
model ne2k_pci, user-mode networking (-net user), and boot device set to
CD-ROM (-boot d). -/
theorem create_vm_from_iso_commands (name : String) (size : Int)
    (iso_path : String) :
    ∃ c2, create_vm_from_iso name size iso_path =
        [Effect.shell ("qemu-img create -f qcow2 " ++ vm_img_path name size
            ++ " " ++ toString size ++ "G"),
         Effect.shell c2] ∧
      strContains c2 ("-cdrom " ++ iso_path) = true ∧
      strContains c2 ("-hda " ++ vm_img_path name size) = true ∧
      strContains c2 "-m 4000" = true ∧
      strContains c2 "-enable-kvm" = true ∧
      strContains c2 "-boot d" = true ∧
      strContains c2 "-net user" = true ∧
      strContains c2 "-net nic,model=ne2k_pci" = true ∧
      strContains c2 "qemu-system-x86_64" = true := by
  refine ⟨"qemu-system-x86_64 -enable-kvm -hda " ++ vm_img_path name size
      ++ " -cdrom " ++ iso_path
      ++ " -m 4000 -boot d -net user -net nic,model=ne2k_pci -enable-kvm",
    rfl, ?_, ?_, ?_, ?_, ?_, ?_, ?_, ?_⟩
  · rw [show "qemu-system-x86_64 -enable-kvm -hda " ++ vm_img_path name size
        ++ " -cdrom " ++ iso_path
        ++ " -m 4000 -boot d -net user -net nic,model=ne2k_pci -enable-kvm"
      = ("qemu-system-x86_64 -enable-kvm -hda " ++ vm_img_path name size ++ " ")
        ++ (("-cdrom " ++ iso_path)
            ++ " -m 4000 -boot d -net user -net nic,model=ne2k_pci -enable-kvm")
      from by simp only [String.append_assoc]; rfl]
    exact strContains_split _ _ _
  · rw [show "qemu-system-x86_64 -enable-kvm -hda " ++ vm_img_path name size
        ++ " -cdrom " ++ iso_path
        ++ " -m 4000 -boot d -net user -net nic,model=ne2k_pci -enable-kvm"
      = "qemu-system-x86_64 -enable-kvm "
        ++ (("-hda " ++ vm_img_path name size)
            ++ (" -cdrom " ++ iso_path
                ++ " -m 4000 -boot d -net user -net nic,model=ne2k_pci -enable-kvm"))
      from by simp only [String.append_assoc]; rfl]
    exact strContains_split _ _ _
  · exact strContains_append_right _ _ _ (by decide)
  · exact strContains_append_right _ _ _ (by decide)
  · exact strContains_append_right _ _ _ (by decide)
  · exact strContains_append_right _ _ _ (by decide)
  · exact strContains_append_right _ _ _ (by decide)
  · exact listSub_of_pre _ _ rfl

theorem beq_debian_eq_false (d : String) (hd : d ≠ debian) :
    (d == "debian") = false :=
  beq_eq_false_iff_ne.mpr (by simpa [debian] using hd)

theorem beq_ubuntu_eq_false (d : String) (hu : d ≠ ubuntu) :
    (d == "ubuntu") = false :=
  beq_eq_false_iff_ne.mpr (by simpa [ubuntu] using hu)

theorem iso_paths_lookup_eq_none (d : String) (hd : d ≠ debian)
    (hu : d ≠ ubuntu) : iso_paths.lookup d = none := by
  simp [iso_paths, List.lookup, debian, ubuntu,
    beq_debian_eq_false d hd, beq_ubuntu_eq_false d hu]

theorem iso_urls_lookup_eq_none (d : String) (hd : d ≠ debian)
    (hu : d ≠ ubuntu) : iso_urls.lookup d = none := by
  simp [iso_urls, List.lookup, debian, ubuntu,
    beq_debian_eq_false d hd, beq_ubuntu_eq_false d hu]

theorem not_mem_distbibutions (d : String) (hd : d ≠ debian)
    (hu : d ≠ ubuntu) : d ∉ distbibutions := by
  simp [distbibutions]
  exact ⟨hd, hu⟩

/-- Claim C2: for every distribution string outside the supported
catalog, download_iso and create_vm print exactly "Distribution not
supported" and do nothing else: the effect trace holds no shell
invocation (so no subprocess, no file, no network), and both return
normally (no exception outcome). -/
theorem unsupported_distribution_only_prints (d : String) (hd : d ≠ debian)
    (hu : d ≠ ubuntu) (fs : String → Bool) (name : String) (size : Int) :
    download_iso d = Except.ok [Effect.print "Distribution not supported"] ∧
    create_vm fs name size d
      = Except.ok [Effect.print "Distribution not supported"] := by
  constructor
  · simp [download_iso, iso_paths_lookup_eq_none d hd hu]
  · simp [create_vm, not_mem_distbibutions d hd hu]

/-- Witness for claim C2 at the unsupported distribution string fedora. -/
theorem unsupported_distribution_only_prints_w :
    download_iso "fedora"
      = Except.ok [Effect.print "Distribution not supported"] ∧
    create_vm (fun _ => false) "test" 10 "fedora"
      = Except.ok [Effect.print "Distribution not supported"] :=
  unsupported_distribution_only_prints "fedora" (by decide) (by decide)
    (fun _ => false) "test" 10

/-- Claim C8: for every supported distribution d, iso_exists is true
exactly when the catalog-mapped local filename for d exists on disk
(the filesystem oracle fs). -/
theorem iso_exists_iff_catalog_file (fs : String → Bool) (d : String)
    (h : d ∈ distbibutions) :
    ∃ path, iso_paths.lookup d = some path ∧ iso_exists fs d = fs path := by
  have hd : d = debian ∨ d = ubuntu := by
    simpa [distbibutions] using h
  rcases hd with rfl | rfl
  · exact ⟨_, rfl, rfl⟩
  · exact ⟨_, rfl, rfl⟩

/-- Witness for claim C8 at the distribution debian and a filesystem
holding exactly the debian ISO file. -/
theorem iso_exists_iff_catalog_file_w :
    ∃ path, iso_paths.lookup "debian" = some path ∧
      iso_exists (fun s => s == "debian-10.13.0-amd64-xfce-CD-1.iso") "debian"
        = (fun s => s == "debian-10.13.0-amd64-xfce-CD-1.iso") path :=
  iso_exists_iff_catalog_file _ "debian" (by decide)

/-- Claim C10: membership in the distbibutions list used by create_vm
coincides with being a key of the iso_paths table and with being a key of
the iso_urls table, and that common supported set is exactly the pair
debian, ubuntu. -/
theorem supported_set_coincides (d : String) :
    (d ∈ distbibutions
      ↔ ((iso_paths.lookup d).isSome ∧ (iso_urls.lookup d).isSome)) ∧
    (d ∈ distbibutions ↔ (d = debian ∨ d = ubuntu)) := by
  by_cases h1 : d = debian
  · subst h1
    constructor <;>
      simp [distbibutions, iso_paths, iso_urls, debian, ubuntu, List.lookup]
  · by_cases h2 : d = ubuntu
    · subst h2
      constructor <;>
        simp [distbibutions, iso_paths, iso_urls, debian, ubuntu, List.lookup]
    · have h1' : d ≠ debian := by simpa [debian] using h1
      have h2' : d ≠ ubuntu := by simpa [ubuntu] using h2
      constructor
      · simp [iso_paths_lookup_eq_none d h1' h2',
          iso_urls_lookup_eq_none d h1' h2', not_mem_distbibutions d h1' h2']
      · simp [not_mem_distbibutions d h1' h2']
        exact ⟨by simpa [debian] using h1', by simpa [ubuntu] using h2'⟩

theorem vnc_pre_vnc (x : String) :
    strStartsWith "-vnc" ("-vnc 127.0.0.1:" ++ x) = true := rfl

theorem not_vnc_qemu : strStartsWith "-vnc" "qemu-system-x86_64" = false := rfl

theorem not_vnc_smp (x : String) :
    strStartsWith "-vnc" ("-smp " ++ x) = false := rfl

theorem not_vnc_cpu : strStartsWith "-vnc" "-cpu host" = false := rfl

theorem not_vnc_device :
    strStartsWith "-vnc" "-device virtio-net,netdev=user.0" = false := rfl

theorem not_vnc_m (x : String) :
    strStartsWith "-vnc" ("-m " ++ x) = false := rfl

theorem not_vnc_drive (x y : String) :
    strStartsWith "-vnc" ("-drive file=" ++ x ++ y) = false := rfl

theorem not_vnc_machine :
    strStartsWith "-vnc" "-machine type=pc,accel=kvm" = false := rfl

theorem not_vnc_netdev (x y : String) :
    strStartsWith "-vnc"
      ("-netdev user,id=user.0,hostfwd=tcp::" ++ x ++ y) = false := rfl

theorem not_vnc_daemonize : strStartsWith "-vnc" "--daemonize" = false := rfl

theorem not_vnc_sudo : strStartsWith "-vnc" "sudo" = false := rfl

/-- Claim C3 counterexample: the claim says that with graphical set the
assembled command contains no VNC flag, but qemu_extra_args is passed
through verbatim, so a call with graphical set and a VNC option inside
qemu_extra_args produces a command that does contain a VNC flag. -/
theorem start_vm_graphical_vnc_cex :
    ∃ s ∈ start_vm_cmd "img.qcow2" 2222 4000 false none
        (some "-vnc 127.0.0.1:2223") none false true 8,
      strStartsWith "-vnc" s = true := by
  refine ⟨"-vnc 127.0.0.1:2223", ?_, rfl⟩
  simp [start_vm_cmd]

/-- Claim C3 (amended): the VNC port is computed as ssh_port + 1, and the
VNC flags of the assembled command are exactly the flag
-vnc 127.0.0.1:(ssh_port+1) when graphical is unset — none when graphical
is set — plus whatever VNC flag the verbatim qemu_extra_args string itself
contributes. -/
theorem start_vm_vnc_flag_filter (img : String) (ssh mem : Int) (dz : Bool)
    (dk ex : Option String) (nc : Option Int) (sd : Bool) (cpu : Nat) :
    ((start_vm_cmd img ssh mem dz dk ex nc sd false cpu).filter
        (fun s => strStartsWith "-vnc" s)
      = ("-vnc 127.0.0.1:" ++ toString (ssh + 1))
          :: (match ex with
              | some e => [e]
              | none => []).filter (fun s => strStartsWith "-vnc" s)) ∧
    ((start_vm_cmd img ssh mem dz dk ex nc sd true cpu).filter
        (fun s => strStartsWith "-vnc" s)
      = (match ex with
          | some e => [e]
          | none => []).filter (fun s => strStartsWith "-vnc" s)) ∧
    ("-vnc 127.0.0.1:2223"
        ∈ start_vm_cmd img 2222 mem dz dk ex nc sd false cpu) := by
  refine ⟨?_, ?_, ?_⟩
  · rcases dk with _ | dsk <;> rcases ex with _ | e <;> cases dz <;> cases sd <;>
      simp [start_vm_cmd, List.filter_append, List.filter_cons, vnc_pre_vnc,
        not_vnc_qemu, not_vnc_smp, not_vnc_cpu, not_vnc_device, not_vnc_m,
        not_vnc_drive, not_vnc_machine, not_vnc_netdev, not_vnc_daemonize,
        not_vnc_sudo]
  · rcases dk with _ | dsk <;> rcases ex with _ | e <;> cases dz <;> cases sd <;>
      simp [start_vm_cmd, List.filter_append, List.filter_cons, vnc_pre_vnc,
        not_vnc_qemu, not_vnc_smp, not_vnc_cpu, not_vnc_device, not_vnc_m,
        not_vnc_drive, not_vnc_machine, not_vnc_netdev, not_vnc_daemonize,
        not_vnc_sudo]
  · rw [show ("-vnc 127.0.0.1:2223" : String)
        = "-vnc 127.0.0.1:" ++ toString ((2222 : Int) + 1) from rfl]
    cases sd <;> simp [start_vm_cmd]

/-- Claim C4: with ncpus unset the -smp value in the assembled command is
the host logical CPU count divided by two rounding down (8 CPUs give
-smp 4), and with ncpus set the given value is used unchanged. -/
theorem start_vm_ncpus_selection (img : String) (ssh mem : Int) (dz : Bool)
    (dk ex : Option String) (sd gr : Bool) (cpu : Nat) (n : Int) :
    ("-smp " ++ toString (Int.ofNat (cpu / 2)))
        ∈ start_vm_cmd img ssh mem dz dk ex none sd gr cpu ∧
    ("-smp 4") ∈ start_vm_cmd img ssh mem dz dk ex none sd gr 8 ∧
    ("-smp " ++ toString n)
        ∈ start_vm_cmd img ssh mem dz dk ex (some n) sd gr cpu := by
  refine ⟨?_, ?_, ?_⟩
  · cases sd <;> cases gr <;> simp [start_vm_cmd]
  · rw [show ("-smp 4" : String) = "-smp " ++ toString (Int.ofNat (8 / 2)) from rfl]
    cases sd <;> cases gr <;> simp [start_vm_cmd]
  · cases sd <;> cases gr <;> simp [start_vm_cmd]

/-- Claim C7: the assembled list is ordered base command, then the
daemonize flag when daemonize is set, then the second virtio drive of
index 1 when disk is set, then the verbatim qemu_extra_args string;
sudo, when set, is prepended as the very first element. -/
theorem start_vm_cmd_assembly (img : String) (ssh mem : Int) (dz : Bool)
    (dk ex : Option String) (nc : Option Int) (sd gr : Bool) (cpu : Nat) :
    start_vm_cmd img ssh mem dz dk ex nc sd gr cpu =
      (if sd then ["sudo"] else [])
      ++ (["qemu-system-x86_64"]
          ++ (if gr then [] else ["-vnc 127.0.0.1:" ++ toString (ssh + 1)])
          ++ ["-smp " ++ toString (match nc with
                | none => Int.ofNat (cpu / 2)
                | some n => n),
              "-cpu host",
              "-device virtio-net,netdev=user.0",
              "-m " ++ toString mem,
              "-drive file=" ++ img
                ++ ",if=virtio,index=0,cache=writeback,discard=ignore,format=qcow2",
              "-machine type=pc,accel=kvm",
              "-netdev user,id=user.0,hostfwd=tcp::" ++ toString ssh ++ "-:22"])
      ++ (if dz then ["--daemonize"] else [])
      ++ (match dk with
          | some d => ["-drive file=" ++ d
              ++ ",if=virtio,index=1,cache=writeback,discard=ignore,format=qcow2"]
          | none => [])
      ++ (match ex with | some e => [e] | none => []) ∧
    (sd = true →
      (start_vm_cmd img ssh mem dz dk ex nc sd gr cpu).head? = some "sudo") ∧
    (dz = true →
      "--daemonize" ∈ start_vm_cmd img ssh mem dz dk ex nc sd gr cpu) ∧
    (∀ d, dk = some d →
      ("-drive file=" ++ d
          ++ ",if=virtio,index=1,cache=writeback,discard=ignore,format=qcow2")
        ∈ start_vm_cmd img ssh mem dz dk ex nc sd gr cpu) ∧
    (∀ e, ex = some e →
      ∃ l, start_vm_cmd img ssh mem dz dk ex nc sd gr cpu = l ++ [e]) := by
  refine ⟨?_, ?_, ?_, ?_, ?_⟩
  · cases sd <;> cases gr <;> simp [start_vm_cmd]
  · intro h
    subst h
    simp [start_vm_cmd]
  · intro h
    subst h
    cases sd <;> cases gr <;> simp [start_vm_cmd]
  · intro d h
    subst h
    cases sd <;> cases gr <;> simp [start_vm_cmd]
  · intro e h
    subst h
    cases sd
    · exact ⟨_, rfl⟩
    · exact ⟨_, (List.cons_append _ _ _).symm⟩

/-- Witness for claim C7 with daemonize, disk, extra args and sudo all
set. -/
theorem start_vm_cmd_assembly_w :
    (start_vm_cmd "i.qcow2" 2222 4000 true (some "d.qcow2") (some "-extra")
        none true false 8).head? = some "sudo" ∧
    "--daemonize" ∈ start_vm_cmd "i.qcow2" 2222 4000 true (some "d.qcow2")
        (some "-extra") none true false 8 ∧
    ("-drive file=" ++ "d.qcow2"
        ++ ",if=virtio,index=1,cache=writeback,discard=ignore,format=qcow2")
      ∈ start_vm_cmd "i.qcow2" 2222 4000 true (some "d.qcow2")
          (some "-extra") none true false 8 ∧
    ∃ l, start_vm_cmd "i.qcow2" 2222 4000 true (some "d.qcow2")
        (some "-extra") none true false 8 = l ++ ["-extra"] := by
  obtain ⟨-, h1, h2, h3, h4⟩ := start_vm_cmd_assembly "i.qcow2" 2222 4000
    true (some "d.qcow2") (some "-extra") none true false 8
  exact ⟨h1 rfl, h2 rfl, h3 "d.qcow2" rfl, h4 "-extra" rfl⟩

/-- Claim C9: start_vm executes the joined command synchronously (the
shell effect), after which exactly one message is printed: on exit code
zero a confirmation naming the SSH port with an ssh -p connection hint,
on any other exit code the failure message; both outcomes return
normally. -/
theorem start_vm_exec_report (run : String → Int) (cpu : Nat) (img : String)
    (ssh mem : Int) (dz : Bool) (dk : Option String) (vb : Bool)
    (ex : Option String) (nc : Option Int) (sd gr : Bool) :
    ∃ m, start_vm run cpu img ssh mem dz dk vb ex nc sd gr =
        (if vb then
          [Effect.print (String.intercalate " "
            (start_vm_cmd img ssh mem dz dk ex nc sd gr cpu))] else [])
        ++ [Effect.shell (String.intercalate " "
              (start_vm_cmd img ssh mem dz dk ex nc sd gr cpu)),
            Effect.print m] ∧
      (run (String.intercalate " "
          (start_vm_cmd img ssh mem dz dk ex nc sd gr cpu)) = 0 →
        m = start_vm_success_msg ssh) ∧
      (run (String.intercalate " "
          (start_vm_cmd img ssh mem dz dk ex nc sd gr cpu)) ≠ 0 →
        m = "vm failed to start") ∧
      strContains (start_vm_success_msg ssh) ("ssh -p " ++ toString ssh) = true ∧
      strContains (start_vm_success_msg ssh) (toString ssh) = true := by
  have hint : strContains (start_vm_success_msg ssh)
      ("ssh -p " ++ toString ssh) = true := by
    rw [show start_vm_success_msg ssh
        = ("vm started wih ssh port " ++ toString ssh
            ++ " on localhost connect with \n")
          ++ (("ssh -p " ++ toString ssh) ++ " \x7bUSER\x7d@localhost")
      from by simp only [start_vm_success_msg, String.append_assoc]; rfl]
    exact strContains_split _ _ _
  have hport : strContains (start_vm_success_msg ssh) (toString ssh) = true := by
    rw [show start_vm_success_msg ssh
        = "vm started wih ssh port "
          ++ (toString ssh
              ++ (" on localhost connect with \nssh -p " ++ toString ssh
                  ++ " \x7bUSER\x7d@localhost"))
      from by simp only [start_vm_success_msg, String.append_assoc]]
    exact strContains_split _ _ _
  by_cases h : run (String.intercalate " "
      (start_vm_cmd img ssh mem dz dk ex nc sd gr cpu)) = 0
  · exact ⟨start_vm_success_msg ssh, by simp [start_vm, h], fun _ => rfl,
      fun hc => absurd h hc, hint, hport⟩
  · exact ⟨"vm failed to start", by simp [start_vm, h], fun hc => absurd hc h,
      fun _ => rfl, hint, hport⟩

/-- Witness for claim C9 with an exit-code oracle that always returns 0:
the printed message is the success confirmation. -/
theorem start_vm_exec_report_w :
    ∃ m : String, m = start_vm_success_msg 2222 := by
  obtain ⟨m, -, h0, -, -, -⟩ := start_vm_exec_report (fun _ => 0) 8
    "img.qcow2" 2222 4000 false none false none none false false
  exact ⟨m, h0 rfl⟩

end Vm
